import Mathlib

/-!
Shallow embedding of the repository "Advanced_Features_and_Security_Django"
(four Django snippets) and proofs about the claims of its specification.

Source files embedded:
* src/exercise1.py            — `CustomUser(AbstractBaseUser)` with fields
  `email = EmailField(unique=True)`, `phone = CharField(max_length=20)`,
  `date_of_birth = DateField()`, `profile_picture = ImageField(upload_to=..., blank=True, null=True)`.
* src/abstract_base_user.py   — `CustomUser(AbstractBaseUser)` with only
  `email = EmailField(unique=True)` and `phone = CharField(max_length=20)`.
* src/exercise2.py            — `EmailBackend(BaseBackend)` forwarding both
  `authenticate` and `get_user` to `super()`.
* src/programmatically_permissions.py — a script resolving a permission by
  codename and adding it to a user's and a group's permission set.

The framework (Django ORM and auth machinery) is an external collaborator
that is not part of the repository; where its behaviour decides a claim it
is modelled from the specification's words, and each such definition says so
in its doc comment.
-/

set_option autoImplicit false

/-- Calendar dates are opaque to the embedded code; a date is an abstract tag. -/
abbrev Date := Nat

/-- The account record declared by src/exercise1.py.  Field for field:
`email` (unique login identifier), `phone` (CharField of max_length 20),
`date_of_birth` (a `DateField()` with neither `null=True` nor a default,
hence NOT NULL: a stored row always carries a date), `profile_picture`
(an `ImageField(..., blank=True, null=True)`, hence nullable: stored as an
optional reference).  The `id` is the automatic primary key every Django
model receives. -/
structure CustomUser where
  id : Nat
  email : String
  phone : String
  date_of_birth : Date
  profile_picture : Option String
deriving DecidableEq

/-- Errors surfaced by the data store on a rejected insert.
`UniquenessViolation` is the spec's name for the duplicate-email failure;
`NotNullViolation` is the store rejecting a missing value for a NOT NULL
column; `DataTooLong` is the store rejecting a value over the declared
column width. -/
inductive DbError where
  | UniquenessViolation
  | NotNullViolation
  | DataTooLong
deriving DecidableEq

/-- The account store: the rows of the `CustomUser` table of
src/exercise1.py together with the next automatic primary key. -/
structure Db where
  users : List CustomUser
  next_id : Nat
deriving DecidableEq

/-- The empty account store. -/
def Db.empty : Db := ⟨[], 0⟩

/-- Modelled from the spec: account creation against the field declarations
of `CustomUser` in src/exercise1.py.  The enforcement itself is performed by
the external data store (spec §6: it "provides account persistence,
uniqueness constraint enforcement on the login identifier"); the
declarations enforced are exactly those in the source: `unique=True` on
`email` (duplicate insert fails with `UniquenessViolation`, spec §4.1 and
§7), `max_length=20` on `phone`, NOT NULL on `date_of_birth`
(a bare `DateField()`), and nullable `profile_picture`. -/
def create_user (db : Db) (email phone : String) (date_of_birth : Option Date)
    (profile_picture : Option String) : Except DbError (CustomUser × Db) :=
  if db.users.any (fun u => u.email == email) then
    Except.error DbError.UniquenessViolation
  else if 20 < phone.length then
    Except.error DbError.DataTooLong
  else
    match date_of_birth with
    | none => Except.error DbError.NotNullViolation
    | some d =>
        Except.ok (⟨db.next_id, email, phone, d, profile_picture⟩,
          ⟨db.users ++ [⟨db.next_id, email, phone, d, profile_picture⟩],
            db.next_id + 1⟩)

/-- The account stores reachable by the operations in scope.  Per the spec
(§3, Lifecycle) accounts are "created at registration time ... never
explicitly deleted in scope", so a reachable store is one obtained from the
empty store by successful `create_user` calls. -/
inductive Db.Reachable : Db → Prop where
  | empty : Db.Reachable Db.empty
  | create (db : Db) (email phone : String) (dob : Option Date)
      (pic : Option String) (u : CustomUser) (db' : Db) :
      Db.Reachable db →
      create_user db email phone dob pic = Except.ok (u, db') →
      Db.Reachable db'

/-- Modelled from the spec: resolving "a persisted account identifier" to
"the corresponding account" in the store (spec §4.2), i.e. the primary-key
lookup the data store provides. -/
def Db.lookup (db : Db) (user_id : Nat) : Option CustomUser :=
  db.users.find? (fun u => u.id == user_id)

/-- A raised Python fault (an exception propagating out of a call), as
opposed to a normal return.  The spec's §7 distinguishes thrown faults from
the normal "no match" result `AuthenticationMiss`. -/
inductive Fault where
  | raised (message : String) : Fault
deriving DecidableEq

/-- An authentication strategy (a Django authentication backend):
`authenticate` takes the request context, an optional identifier and an
optional secret and either raises a `Fault` or returns normally with the
matching account or `none`; `get_user` takes a persisted account id and
either raises or returns the corresponding account or `none`.  The request
context type `ρ` is opaque to all of the embedded code. -/
structure Backend (ρ : Type) where
  authenticate : ρ → Option String → Option String → Except Fault (Option CustomUser)
  get_user : Nat → Except Fault (Option CustomUser)

/-- Modelled from the spec: the framework's default/fallback strategy
(`django.contrib.auth.backends.BaseBackend`), an external collaborator not
in src/.  Both of its operations resolve nothing: they return the normal
"no match" result (`none`) and raise no fault. -/
def BaseBackend {ρ : Type} : Backend ρ where
  authenticate _ _ _ := Except.ok none
  get_user _ := Except.ok none

/-- `EmailBackend` from src/exercise2.py.  Its `authenticate(self, request,
username=None, password=None)` body is `return super().authenticate(request,
username, password)` and its `get_user(self, user_id)` body is
`return super().get_user(user_id)`: both calls forward verbatim to the
parent strategy.  Per the spec (§9) the `super()` delegation is modelled as
composition: the custom strategy holds a reference to the fallback strategy
it forwards to. -/
def EmailBackend {ρ : Type} (fallback : Backend ρ) : Backend ρ where
  authenticate request username password := fallback.authenticate request username password
  get_user user_id := fallback.get_user user_id

namespace models

/-- A permission as in src/programmatically_permissions.py: an opaque named
capability identified by a short code (its `codename`, e.g. "add_post"),
owned by the framework's authorization subsystem (the namespace mirrors
`django.contrib.auth.models`, which the script imports `Permission` from). -/
structure Permission where
  codename : String
deriving DecidableEq

/-- The error of src/programmatically_permissions.py's lookup: Django's
`Permission.DoesNotExist`, the spec's `NotFound` — raised when a referenced
permission code does not exist. -/
inductive ScriptError where
  | DoesNotExist
deriving DecidableEq

/-- An account as seen by the permission script: it carries its individual
permission set (`user.user_permissions`). -/
structure User where
  user_permissions : List Permission
deriving DecidableEq

/-- A group: a named collection of accounts (`user_set` is Django's reverse
accessor for the members of a group) sharing a permission set
(`group.permissions`). -/
structure Group where
  name : String
  permissions : List Permission
  user_set : List User
deriving DecidableEq

/-- Modelled from the spec: `Permission.objects.get(codename=...)` — the ORM
lookup is framework code outside src/; per the spec (§4.3) it resolves "a
permission by its code, failing with NotFound if no such code exists".  The
store of defined permissions is passed explicitly (spec §9: ambient ORM
globals become explicit parameters). -/
def Permission.get (store : List Permission) (codename : String) :
    Except ScriptError Permission :=
  match store.find? (fun p => p.codename == codename) with
  | none => Except.error ScriptError.DoesNotExist
  | some p => Except.ok p

/-- Modelled from the spec: `user.user_permissions.add(permission)` — the
many-to-many `add` is framework code outside src/; per the spec (§3) the
assignment relation is a set-like relation on which "assigning an
already-held permission is idempotent (no duplicate effect)", so adding an
already-present permission leaves the set unchanged and adding a new one
appends it. -/
def User.add_permission (u : models.User) (p : Permission) : User :=
  if p ∈ u.user_permissions then u
  else ⟨u.user_permissions ++ [p]⟩

/-- Modelled from the spec: `group.permissions.add(permission)` — the
many-to-many `add` is framework code outside src/; same set-like semantics
as `User.add_permission`, touching only the group's permission set. -/
def Group.add_permission (g : models.Group) (p : Permission) : Group :=
  if p ∈ g.permissions then g
  else ⟨g.name, g.permissions ++ [p], g.user_set⟩

/-- The script src/programmatically_permissions.py as a function of its
inputs (per the spec §9, the ambient free variables `user` and `group` and
the process-wide permission store become explicit parameters): resolve the
permission by its code — on failure the error propagates to the caller and
the state is returned untouched — then add the permission to the user's
permission set and to the group's permission set. -/
def assign_permission (store : List Permission) (codename : String)
    (user : models.User) (group : models.Group) : Except ScriptError Unit × User × Group :=
  match Permission.get store codename with
  | Except.error e => (Except.error e, user, group)
  | Except.ok permission =>
      (Except.ok (), user.add_permission permission, group.add_permission permission)

end models

open models

/-- C1: the custom strategy's `authenticate` returns exactly what the
fallback's `authenticate` returns on the same context, identifier and
secret, and its `get_user` returns exactly what the fallback's `get_user`
returns on the same id (delegation-equivalence), for every fallback
strategy and every input. -/
theorem C1_delegation_equivalence : ∀ (ρ : Type) (fallback : Backend ρ)
    (request : ρ) (username password : Option String) (user_id : Nat),
    (EmailBackend fallback).authenticate request username password =
      fallback.authenticate request username password ∧
    (EmailBackend fallback).get_user user_id = fallback.get_user user_id := by
  intro ρ fallback request username password user_id
  exact ⟨rfl, rfl⟩

/-- C6: for every context, identifier and secret — including absent or
invalid credentials — the custom strategy's `authenticate` raises no fault:
it returns normally, and the absence of a match is the normal `none`
result. -/
theorem C6_authenticate_never_raises : ∀ (ρ : Type) (request : ρ)
    (username password : Option String),
    (EmailBackend (@BaseBackend ρ)).authenticate request username password =
      Except.ok none := by
  intro ρ request username password
  rfl

/-- C9: composed with the framework's `BaseBackend` fallback, the stub can
never authenticate any user: `authenticate` never yields an account on any
input (it returns the normal "nothing" result), and `get_user` returns
"nothing" for every id, because the fallback it forwards to resolves
nothing. -/
theorem C9_never_authenticates : ∀ (ρ : Type) (request : ρ)
    (username password : Option String) (user_id : Nat) (account : CustomUser),
    (EmailBackend (@BaseBackend ρ)).authenticate request username password ≠
      Except.ok (some account) ∧
    (EmailBackend (@BaseBackend ρ)).authenticate request username password =
      Except.ok none ∧
    (EmailBackend (@BaseBackend ρ)).get_user user_id = Except.ok none := by
  intro ρ request username password user_id account
  refine ⟨?_, rfl, rfl⟩
  intro h
  exact Option.noConfusion (Except.ok.inj h)

/-- Adding a permission the user already holds leaves the user unchanged. -/
theorem models.User.user_add_permission_of_mem {u : models.User} {p : models.Permission}
    (h : p ∈ u.user_permissions) : u.add_permission p = u := by
  simp [User.add_permission, h]

/-- After adding a permission, the user holds it. -/
theorem models.User.user_mem_add_permission (u : models.User) (p : models.Permission) :
    p ∈ (u.add_permission p).user_permissions := by
  by_cases h : p ∈ u.user_permissions <;> simp [User.add_permission, h]

/-- Adding a permission the group already holds leaves the group unchanged. -/
theorem models.Group.group_add_permission_of_mem {g : models.Group} {p : models.Permission}
    (h : p ∈ g.permissions) : g.add_permission p = g := by
  simp [Group.add_permission, h]

/-- After adding a permission, the group holds it. -/
theorem models.Group.group_mem_add_permission (g : models.Group) (p : models.Permission) :
    p ∈ (g.add_permission p).permissions := by
  by_cases h : p ∈ g.permissions <;> simp [Group.add_permission, h]

/-- C3: assigning a permission twice to the same account is idempotent — the
second assignment is a no-op, the account's permission set then contains the
permission exactly once, and the multiplicity of every other permission is
unchanged; and the same holds for assigning a permission twice to a group.
The hypotheses say the starting permission sets are duplicate-free, which
every set reachable through the framework's set-like relation is. -/
theorem C3_assign_permission_idempotent : ∀ (u : models.User) (g : models.Group) (p : models.Permission),
    u.user_permissions.Nodup → g.permissions.Nodup →
    ((u.add_permission p).add_permission p = u.add_permission p ∧
     ((u.add_permission p).add_permission p).user_permissions.count p = 1 ∧
     (∀ q, q ≠ p →
       ((u.add_permission p).add_permission p).user_permissions.count q =
         u.user_permissions.count q) ∧
     (g.add_permission p).add_permission p = g.add_permission p ∧
     ((g.add_permission p).add_permission p).permissions.count p = 1 ∧
     (∀ q, q ≠ p →
       ((g.add_permission p).add_permission p).permissions.count q =
         g.permissions.count q)) := by
  intro u g p hu hg
  rw [User.user_add_permission_of_mem (User.user_mem_add_permission u p),
      Group.group_add_permission_of_mem (Group.group_mem_add_permission g p)]
  by_cases hup : p ∈ u.user_permissions <;> by_cases hgp : p ∈ g.permissions
  all_goals
    refine ⟨rfl, ?_, ?_, rfl, ?_, ?_⟩ <;>
      simp only [User.add_permission, Group.add_permission, hup, hgp, if_pos, if_neg,
        not_false_iff, ite_true, ite_false]
  all_goals first
    | exact List.count_eq_one_of_mem hu hup
    | exact List.count_eq_one_of_mem hg hgp
    | (simp [List.count_append, List.count_singleton',
        List.count_eq_zero_of_not_mem, hup, hgp];
       exact fun q hq h => hq h.symm)
    | (simp [List.count_append, List.count_singleton',
        List.count_eq_zero_of_not_mem, hup, hgp])

/-- Witness for C3 at a concrete account, group and permission. -/
theorem C3_assign_permission_idempotent_witness :
    ((⟨[]⟩ : models.User).add_permission ⟨("add_post")⟩).add_permission ⟨("add_post")⟩ =
      (⟨[]⟩ : models.User).add_permission ⟨("add_post")⟩ ∧
    (((⟨[]⟩ : models.User).add_permission ⟨("add_post")⟩).add_permission
        ⟨("add_post")⟩).user_permissions.count ⟨("add_post")⟩ = 1 :=
  ⟨(C3_assign_permission_idempotent ⟨[]⟩ ⟨("editors"), [], []⟩ ⟨("add_post")⟩
      (List.nodup_nil) (List.nodup_nil)).1,
   (C3_assign_permission_idempotent ⟨[]⟩ ⟨("editors"), [], []⟩ ⟨("add_post")⟩
      (List.nodup_nil) (List.nodup_nil)).2.1⟩

/-- C4: running the assignment action with a permission code that no
permission in the store carries fails with NotFound (`DoesNotExist`) and
returns the account and the group exactly as they were — no side effect on
any permission set. -/
theorem C4_missing_code_fails_without_effect : ∀ (store : List models.Permission)
    (codename : String) (user : models.User) (group : models.Group),
    (∀ p ∈ store, p.codename ≠ codename) →
    assign_permission store codename user group =
      (Except.error ScriptError.DoesNotExist, user, group) := by
  intro store codename user group h
  unfold assign_permission Permission.get
  have hfind : store.find? (fun p => p.codename == codename) = none := by
    rw [List.find?_eq_none]
    intro p hp
    simpa using h p hp
  rw [hfind]

/-- Witness for C4: a store defining only "add_post", queried with the
spec's "nonexistent_code". -/
theorem C4_missing_code_fails_without_effect_witness :
    assign_permission [⟨("add_post")⟩] ("nonexistent_code") ⟨[]⟩
        ⟨("editors"), [], []⟩ =
      (Except.error ScriptError.DoesNotExist, ⟨[]⟩, ⟨("editors"), [], []⟩) :=
  C4_missing_code_fails_without_effect [⟨("add_post")⟩] ("nonexistent_code")
    ⟨[]⟩ ⟨("editors"), [], []⟩ (by decide)

/-- C8: assigning a permission to a group mutates only the group's
permission set: its name and its member list — each member record carried
with its individual permission set — are unchanged, so no member's
individual permission set changes, and membership is preserved. -/
theorem C8_group_assignment_frame : ∀ (g : models.Group) (p : models.Permission) (m : models.User),
    (g.add_permission p).name = g.name ∧
    (g.add_permission p).user_set = g.user_set ∧
    (g.add_permission p).user_set.map User.user_permissions =
      g.user_set.map User.user_permissions ∧
    (m ∈ g.user_set → m ∈ (g.add_permission p).user_set) := by
  intro g p m
  by_cases h : p ∈ g.permissions <;> simp [Group.add_permission, h]

/-- Witness for C8 at a concrete group with one member. -/
theorem C8_group_assignment_frame_witness :
    ((⟨("editors"), [], [⟨[]⟩]⟩ : models.Group).add_permission ⟨("add_post")⟩).user_set =
      [(⟨[]⟩ : models.User)] ∧
    (⟨[]⟩ : models.User) ∈
      ((⟨("editors"), [], [⟨[]⟩]⟩ : models.Group).add_permission ⟨("add_post")⟩).user_set :=
  ⟨(C8_group_assignment_frame ⟨("editors"), [], [⟨[]⟩]⟩ ⟨("add_post")⟩ ⟨[]⟩).2.1,
   (C8_group_assignment_frame ⟨("editors"), [], [⟨[]⟩]⟩ ⟨("add_post")⟩ ⟨[]⟩).2.2.2
     (by simp)⟩

/-- C7: the code at the spec's failing point.  A successful creation puts
an account with id 0 in the store and the store resolves that id to the
account, yet the strategy's `get_user` — forwarding to the fallback that
resolves nothing — returns `none` for it rather than the account. -/
theorem C7_get_user_stub_returns_none :
    create_user Db.empty ("alice@example.com") ("0712345678") (some 19900101) none =
      Except.ok (⟨0, ("alice@example.com"), ("0712345678"), 19900101, none⟩,
        ⟨[⟨0, ("alice@example.com"), ("0712345678"), 19900101, none⟩], 1⟩) ∧
    Db.lookup ⟨[⟨0, ("alice@example.com"), ("0712345678"), 19900101, none⟩], 1⟩ 0 =
      some ⟨0, ("alice@example.com"), ("0712345678"), 19900101, none⟩ ∧
    (EmailBackend (@BaseBackend Unit)).get_user 0 = Except.ok none := by
  refine ⟨?_, ?_, rfl⟩ <;> rfl

/-- Inverting a successful creation on the exercise1 model: the email was
fresh, the phone within the declared width, and the new store is the old
one extended with the new row, whose fields are the supplied values. -/
theorem create_user_ok {db : Db} {email phone : String} {dob : Option Date}
    {pic : Option String} {u : CustomUser} {db' : Db}
    (h : create_user db email phone dob pic = Except.ok (u, db')) :
    (∀ v ∈ db.users, v.email ≠ email) ∧ phone.length ≤ 20 ∧
    u.email = email ∧ u.phone = phone ∧ db'.users = db.users ++ [u] := by
  unfold create_user at h
  split at h
  next h1 => exact absurd h (by simp)
  next h1 =>
    split at h
    next h2 => exact absurd h (by simp)
    next h2 =>
      cases dob with
      | none => exact absurd h (by simp)
      | some d =>
        simp only [Except.ok.injEq, Prod.mk.injEq] at h
        obtain ⟨hu, hdb⟩ := h
        subst hu
        subst hdb
        refine ⟨?_, Nat.le_of_not_lt h2, rfl, rfl, rfl⟩
        intro v hv hEq
        exact h1 (List.any_eq_true.mpr ⟨v, hv, by simp [hEq]⟩)

/-- A creation with a fresh email, a phone within the declared width and a
supplied date of birth succeeds, appending the new row. -/
theorem create_user_fresh_ok {db : Db} {email phone : String} {d : Date}
    {pic : Option String} (hfresh : ∀ v ∈ db.users, v.email ≠ email)
    (hlen : phone.length ≤ 20) :
    create_user db email phone (some d) pic =
      Except.ok (⟨db.next_id, email, phone, d, pic⟩,
        ⟨db.users ++ [⟨db.next_id, email, phone, d, pic⟩], db.next_id + 1⟩) := by
  have h1 : db.users.any (fun v => v.email == email) = false := by
    rw [List.any_eq_false]
    intro v hv
    simpa using hfresh v hv
  simp [create_user, h1, Nat.not_lt.mpr hlen]

/-- Every reachable exercise1 account store has pairwise distinct emails. -/
theorem reachable_emails_distinct {db : Db} (h : Db.Reachable db) :
    db.users.Pairwise (fun a b => a.email ≠ b.email) := by
  induction h with
  | empty => exact List.Pairwise.nil
  | create db e p dob pic u db' hr hok ih =>
    obtain ⟨hfresh, hlen, hue, hup, husers⟩ := create_user_ok hok
    rw [husers]
    refine List.pairwise_append.mpr ⟨ih, List.pairwise_singleton _ _, ?_⟩
    intro a ha b hb
    rw [List.mem_singleton] at hb
    subst hb
    rw [hue]
    exact hfresh a ha

/-- Every account in every reachable exercise1 store has a phone within the
declared 20-character width. -/
theorem reachable_phones_le {db : Db} (h : Db.Reachable db) :
    ∀ u ∈ db.users, u.phone.length ≤ 20 := by
  induction h with
  | empty => intro u hu; exact absurd hu (by simp [Db.empty])
  | create db e p dob pic u db' hr hok ih =>
    obtain ⟨hfresh, hlen, hue, hup, husers⟩ := create_user_ok hok
    rw [husers]
    intro v hv
    rcases List.mem_append.mp hv with hv | hv
    · exact ih v hv
    · rw [List.mem_singleton] at hv
      subst hv
      rw [hup]
      exact hlen

namespace abstract_base_user

/-- The account record declared by src/abstract_base_user.py: only the
unique `email` and the `phone` CharField of max_length 20 (the file's
comment leaves "other fields as needed" undeclared). -/
structure CustomUser where
  email : String
  phone : String
deriving DecidableEq

/-- The rows of this model's table. -/
structure Db where
  users : List CustomUser
deriving DecidableEq

/-- The empty store for the abstract_base_user model. -/
def Db.empty : Db := ⟨[]⟩

/-- Modelled from the spec: account creation against the declarations of
src/abstract_base_user.py — `unique=True` on email and `max_length=20` on
phone, enforced by the external data store exactly as for exercise1. -/
def create_user (db : Db) (email phone : String) :
    Except DbError (CustomUser × Db) :=
  if db.users.any (fun u => u.email == email) then
    Except.error DbError.UniquenessViolation
  else if 20 < phone.length then
    Except.error DbError.DataTooLong
  else
    Except.ok (⟨email, phone⟩, ⟨db.users ++ [⟨email, phone⟩]⟩)

/-- Reachable stores of the abstract_base_user model: obtained from the
empty store by successful creations. -/
inductive Db.Reachable : Db → Prop where
  | empty : Db.Reachable Db.empty
  | create (db : Db) (email phone : String) (u : CustomUser) (db' : Db) :
      Db.Reachable db →
      create_user db email phone = Except.ok (u, db') →
      Db.Reachable db'

/-- Inverting a successful creation on the abstract_base_user model. -/
theorem abu_create_user_ok {db : Db} {email phone : String} {u : CustomUser}
    {db' : Db} (h : create_user db email phone = Except.ok (u, db')) :
    (∀ v ∈ db.users, v.email ≠ email) ∧ phone.length ≤ 20 ∧
    u.email = email ∧ u.phone = phone ∧ db'.users = db.users ++ [u] := by
  unfold create_user at h
  split at h
  next h1 => exact absurd h (by simp)
  next h1 =>
    split at h
    next h2 => exact absurd h (by simp)
    next h2 =>
      simp only [Except.ok.injEq, Prod.mk.injEq] at h
      obtain ⟨hu, hdb⟩ := h
      subst hu
      subst hdb
      refine ⟨?_, Nat.le_of_not_lt h2, rfl, rfl, rfl⟩
      intro v hv hEq
      exact h1 (List.any_eq_true.mpr ⟨v, hv, by simp [hEq]⟩)

/-- Every reachable abstract_base_user store has pairwise distinct emails. -/
theorem abu_reachable_emails_distinct {db : Db} (h : Db.Reachable db) :
    db.users.Pairwise (fun a b => a.email ≠ b.email) := by
  induction h with
  | empty => exact List.Pairwise.nil
  | create db e p u db' hr hok ih =>
    obtain ⟨hfresh, hlen, hue, hup, husers⟩ := abu_create_user_ok hok
    rw [husers]
    refine List.pairwise_append.mpr ⟨ih, List.pairwise_singleton _ _, ?_⟩
    intro a ha b hb
    rw [List.mem_singleton] at hb
    subst hb
    rw [hue]
    exact hfresh a ha

/-- Every account in every reachable abstract_base_user store has a phone
within the declared 20-character width. -/
theorem abu_reachable_phones_le {db : Db} (h : Db.Reachable db) :
    ∀ u ∈ db.users, u.phone.length ≤ 20 := by
  induction h with
  | empty => intro u hu; exact absurd hu (by simp [Db.empty])
  | create db e p u db' hr hok ih =>
    obtain ⟨hfresh, hlen, hue, hup, husers⟩ := abu_create_user_ok hok
    rw [husers]
    intro v hv
    rcases List.mem_append.mp hv with hv | hv
    · exact ih v hv
    · rw [List.mem_singleton] at hv
      subst hv
      rw [hup]
      exact hlen

end abstract_base_user

/-- C2: with valid fields, creating an account whose email is already taken
fails with `UniquenessViolation`; creating accounts with fresh, distinct
emails succeeds; and consequently in every reachable store no two accounts
share an email — in the exercise1 model, and likewise (duplicate rejection
and the invariant) in the abstract_base_user model. -/
theorem C2_email_uniqueness :
    (∀ (db : Db) (email phone : String) (d : Date) (pic : Option String),
       phone.length ≤ 20 → (∃ v ∈ db.users, v.email = email) →
       create_user db email phone (some d) pic =
         Except.error DbError.UniquenessViolation) ∧
    (∀ (db : Db) (e1 e2 p1 p2 : String) (d1 d2 : Date) (pic1 pic2 : Option String),
       e1 ≠ e2 → (∀ v ∈ db.users, v.email ≠ e1) → (∀ v ∈ db.users, v.email ≠ e2) →
       p1.length ≤ 20 → p2.length ≤ 20 →
       ∃ u1 db1 u2 db2,
         create_user db e1 p1 (some d1) pic1 = Except.ok (u1, db1) ∧
         create_user db1 e2 p2 (some d2) pic2 = Except.ok (u2, db2)) ∧
    (∀ db : Db, Db.Reachable db →
       db.users.Pairwise (fun a b => a.email ≠ b.email)) ∧
    (∀ (db : abstract_base_user.Db) (email phone : String),
       phone.length ≤ 20 → (∃ v ∈ db.users, v.email = email) →
       abstract_base_user.create_user db email phone =
         Except.error DbError.UniquenessViolation) ∧
    (∀ db : abstract_base_user.Db, abstract_base_user.Db.Reachable db →
       db.users.Pairwise (fun a b => a.email ≠ b.email)) := by
  refine ⟨?_, ?_, ?_, ?_, ?_⟩
  · rintro db email phone d pic hlen ⟨v, hv, hEq⟩
    unfold create_user
    rw [if_pos (List.any_eq_true.mpr ⟨v, hv, by simp [hEq]⟩)]
  · intro db e1 e2 p1 p2 d1 d2 pic1 pic2 hne hf1 hf2 hl1 hl2
    refine ⟨_, _, _, _, create_user_fresh_ok hf1 hl1, create_user_fresh_ok ?_ hl2⟩
    intro v hv
    rcases List.mem_append.mp hv with hv | hv
    · exact hf2 v hv
    · rw [List.mem_singleton] at hv
      subst hv
      simpa using hne
  · exact fun db h => reachable_emails_distinct h
  · rintro db email phone hlen ⟨v, hv, hEq⟩
    unfold abstract_base_user.create_user
    rw [if_pos (List.any_eq_true.mpr ⟨v, hv, by simp [hEq]⟩)]
  · exact fun db h => abstract_base_user.abu_reachable_emails_distinct h

/-- Witness for C2: a duplicate insert into a store already holding the
email fails with `UniquenessViolation`. -/
theorem C2_email_uniqueness_witness :
    create_user ⟨[⟨0, ("alice@example.com"), ("0712345678"), 0, none⟩], 1⟩
        ("alice@example.com") ("0700000000") (some 1) none =
      Except.error DbError.UniquenessViolation :=
  C2_email_uniqueness.1 ⟨[⟨0, ("alice@example.com"), ("0712345678"), 0, none⟩], 1⟩
    ("alice@example.com") ("0700000000") 1 none (by decide)
    ⟨⟨0, ("alice@example.com"), ("0712345678"), 0, none⟩, by simp, rfl⟩

/-- C5 (amended): the constructor accepts the absent profile picture as a
valid default, but the date of birth is required (`DateField()` is declared
without `null=True` and without a default): for every valid email and
phone, creating an account with a date of birth and no profile picture
succeeds, while creating one without a date of birth fails with a NOT NULL
violation. -/
theorem C5_optional_fields_amended : ∀ (email phone : String) (d : Date),
    phone.length ≤ 20 →
    (create_user Db.empty email phone (some d) none =
       Except.ok (⟨0, email, phone, d, none⟩, ⟨[⟨0, email, phone, d, none⟩], 1⟩)) ∧
    create_user Db.empty email phone none none =
      Except.error DbError.NotNullViolation := by
  intro email phone d hlen
  constructor
  · exact create_user_fresh_ok (by intro v hv; exact absurd hv (by simp [Db.empty])) hlen
  · simp [create_user, Db.empty, Nat.not_lt.mpr hlen]

/-- Witness for C5 (amended) at a concrete email, phone and date. -/
theorem C5_optional_fields_amended_witness :
    create_user Db.empty ("alice@example.com") ("0712345678") (some 19900101) none =
      Except.ok (⟨0, ("alice@example.com"), ("0712345678"), 19900101, none⟩,
        ⟨[⟨0, ("alice@example.com"), ("0712345678"), 19900101, none⟩], 1⟩) :=
  (C5_optional_fields_amended ("alice@example.com") ("0712345678") 19900101
    (by decide)).1

/-- C5 counterexample: with a valid email and phone, creating an account
without a date of birth and without a profile picture does not succeed —
it is rejected because `date_of_birth` is a `DateField()` without
`null=True`, refuting the claim that both fields are optional. -/
theorem C5_optional_fields_counterexample :
    (create_user Db.empty ("alice@example.com") ("0712345678") none none).isOk
      = false := rfl

/-- C10: every account in every reachable store has a phone of at most 20
characters — in both custom user models — and creation with an over-long
phone (and a fresh email) is rejected with `DataTooLong`, so the store
never contains a phone longer than the declared width. -/
theorem C10_phone_max_length :
    (∀ db : Db, Db.Reachable db → ∀ u ∈ db.users, u.phone.length ≤ 20) ∧
    (∀ (db : Db) (email phone : String) (dob : Option Date) (pic : Option String),
       (∀ v ∈ db.users, v.email ≠ email) → 20 < phone.length →
       create_user db email phone dob pic = Except.error DbError.DataTooLong) ∧
    (∀ db : abstract_base_user.Db, abstract_base_user.Db.Reachable db →
       ∀ u ∈ db.users, u.phone.length ≤ 20) := by
  refine ⟨fun db h => reachable_phones_le h, ?_,
    fun db h => abstract_base_user.abu_reachable_phones_le h⟩
  intro db email phone dob pic hfresh hlong
  have h1 : db.users.any (fun v => v.email == email) = false := by
    rw [List.any_eq_false]
    intro v hv
    simpa using hfresh v hv
  simp [create_user, h1, hlong]

/-- Witness for C10 at a concrete reachable store holding one account. -/
theorem C10_phone_max_length_witness :
    (⟨0, ("alice@example.com"), ("0712345678"), 0, none⟩ : CustomUser).phone.length
      ≤ 20 :=
  C10_phone_max_length.1
    ⟨[⟨0, ("alice@example.com"), ("0712345678"), 0, none⟩], 1⟩
    (Db.Reachable.create Db.empty ("alice@example.com") ("0712345678") (some 0)
      none ⟨0, ("alice@example.com"), ("0712345678"), 0, none⟩
      ⟨[⟨0, ("alice@example.com"), ("0712345678"), 0, none⟩], 1⟩
      Db.Reachable.empty rfl)
    ⟨0, ("alice@example.com"), ("0712345678"), 0, none⟩ (by simp)

/-- Witness for C1: delegation-equivalence instantiated at the framework
fallback and concrete inputs. -/
theorem C1_delegation_equivalence_witness :
    (EmailBackend (@BaseBackend Unit)).authenticate () none none =
      (@BaseBackend Unit).authenticate () none none :=
  (C1_delegation_equivalence Unit (@BaseBackend Unit) () none none 0).1

/-- Witness for C6: an invalid-credential call returns the normal "no
match" result and raises nothing. -/
theorem C6_authenticate_never_raises_witness :
    (EmailBackend (@BaseBackend Unit)).authenticate () (some ("alice@example.com"))
        (some ("wrong-password")) = Except.ok none :=
  C6_authenticate_never_raises Unit () (some ("alice@example.com"))
    (some ("wrong-password"))

/-- Witness for C9 at concrete inputs. -/
theorem C9_never_authenticates_witness :
    (EmailBackend (@BaseBackend Unit)).authenticate () (some ("alice@example.com"))
        (some ("secret")) = Except.ok none ∧
    (EmailBackend (@BaseBackend Unit)).get_user 7 = Except.ok none :=
  ⟨(C9_never_authenticates Unit () (some ("alice@example.com")) (some ("secret")) 7
      ⟨0, ("alice@example.com"), ("0712345678"), 0, none⟩).2.1,
   (C9_never_authenticates Unit () (some ("alice@example.com")) (some ("secret")) 7
      ⟨0, ("alice@example.com"), ("0712345678"), 0, none⟩).2.2⟩
